import Mathlib

/-!
# Verification of the body-tracker authentication subsystem

Shallow embedding, in Lean 4, of the authentication and session code of the
body-tracker repository, together with theorems settling the specification
claims about it.

Embedded modules (translated from the TypeScript source):
* `apps/frontend/src/auth/utils/pkce.ts` — PKCE pair generation and base64url.
* `apps/backend/src/auth/google.ts` (the Hono/Workers variant, the one the
  current backend imports) — code exchange, Google token verification,
  user resolution, application JWT issuance and verification.
* `apps/backend/src/middleware/auth.ts` — bearer-token middleware.
* `apps/backend/src/routes/auth.ts` — the `POST /auth/google/code` handler.
* `apps/frontend/src/auth/types/auth.types.ts` — the `isUser` type guard.
* `apps/frontend/src/auth/services/authStorage.ts` — the client session store.
* `apps/frontend/src/auth/services/authCodeFlow.ts` — the callback coordinator.
* `apps/frontend/src/auth/hooks/useAuthState.ts` — session initialization.

External platform primitives (the Web Crypto SHA-256 digest, the network
responses of Google's token and tokeninfo endpoints, the `/auth/me` fetch,
`JSON.parse`) are modelled as explicit oracle parameters: the embedded
functions are parameterised over them, so every theorem quantifies over all
possible behaviours of those primitives.
-/

namespace BodyTracker

/-! ## JSON values

Stored user records and fetched identities flow through the frontend as
dynamically-typed parsed JSON (`JSON.parse` / `response.json()` results cast
to `User`).  We model parsed JSON values with a small inductive type; object
fields are an association list in insertion order. -/

inductive Json where
  | null : Json
  | bool (b : Bool) : Json
  | num (n : Int) : Json
  | str (s : String) : Json
  | arr (elems : List Json) : Json
  | obj (fields : List (String × Json)) : Json

/-- Field lookup on a parsed JSON object's association list (first match,
like JavaScript property access on objects built by `JSON.parse`). -/
def jsonLookup : List (String × Json) → String → Option Json
  | [], _ => none
  | (k, v) :: rest, key => if k = key then some v else jsonLookup rest key

/-- `isUser` from `auth.types.ts`: `typeof value === 'object' && value !== null`
and the `id` and `email` properties are strings.  JavaScript arrays also have
`typeof 'object'` but have no string-valued `id`/`email` properties, so only
objects with both fields pass. -/
def isUser (j : Json) : Bool :=
  match j with
  | .obj fields =>
    (match jsonLookup fields "id" with | some (.str _) => true | _ => false) &&
    (match jsonLookup fields "email" with | some (.str _) => true | _ => false)
  | _ => false

/-! ## base64url and UTF-8 (`apps/frontend/src/auth/utils/pkce.ts`)

The source builds a binary string from the bytes, applies `btoa` (standard
base64 with padding), then replaces `+` with `-`, `/` with `_`, and strips
trailing `=`. -/

/-- The standard base64 alphabet used by `btoa`. -/
def base64Alphabet : String :=
  "ABCDEFGHIJKLMNOPQRSTUVWXYZabcdefghijklmnopqrstuvwxyz0123456789+/"

/-- The base64 character for a 6-bit value. -/
def b64char (n : Nat) : Char := base64Alphabet.toList.getD n 'A'

/-- Standard base64 encoding of a byte list (the behaviour of `btoa` on a
binary string of these bytes), including `=` padding. -/
def base64Encode : List Nat → List Char
  | [] => []
  | [b1] => [b64char (b1 / 4), b64char (b1 % 4 * 16), '=', '=']
  | [b1, b2] => [b64char (b1 / 4), b64char (b1 % 4 * 16 + b2 / 16), b64char (b2 % 16 * 4), '=']
  | b1 :: b2 :: b3 :: rest =>
    b64char (b1 / 4) :: b64char (b1 % 4 * 16 + b2 / 16) ::
      b64char (b2 % 16 * 4 + b3 / 64) :: b64char (b3 % 64) :: base64Encode rest

/-- The two character replacements of `base64Url` in `pkce.ts`
(`+` → `-`, `/` → `_`). -/
def base64UrlRepl (c : Char) : Char :=
  if c = '+' then '-' else if c = '/' then '_' else c

/-- Strip the trailing run of `=` characters (`replace(/=+$/g, '')`). -/
def dropTrailingEq (cs : List Char) : List Char :=
  (cs.reverse.dropWhile (· = '=')).reverse

/-- `base64Url` from `pkce.ts`: standard base64 of the bytes, made URL safe,
with padding stripped. -/
def base64Url (bytes : List Nat) : String :=
  ⟨dropTrailingEq ((base64Encode bytes).map base64UrlRepl)⟩

/-- UTF-8 encoding of one Unicode scalar value (what `TextEncoder` emits per
character). -/
def utf8EncodeChar (c : Char) : List Nat :=
  let n := c.toNat
  if n < 0x80 then [n]
  else if n < 0x800 then [0xC0 + n / 64, 0x80 + n % 64]
  else if n < 0x10000 then [0xE0 + n / 4096, 0x80 + n / 64 % 64, 0x80 + n % 64]
  else [0xF0 + n / 262144, 0x80 + n / 4096 % 64, 0x80 + n / 64 % 64, 0x80 + n % 64]

/-- `new TextEncoder().encode(s)`: the UTF-8 bytes of the string. -/
def utf8Encode (s : String) : List Nat :=
  s.toList.foldr (fun c acc => utf8EncodeChar c ++ acc) []

/-! ## PKCE pair generation (`apps/frontend/src/auth/utils/pkce.ts`) -/

structure PkcePair where
  verifier : String
  challenge : String
  deriving Repr, DecidableEq

/-- `generatePkcePair` from `pkce.ts`.  The call
`crypto.getRandomValues(new Uint8Array(32))` is modelled by the
`randomBytes` parameter (the 32 drawn bytes) and the Web Crypto call
`crypto.subtle.digest('SHA-256', …)` by the `sha256` oracle parameter.
The verifier is the base64url of the random bytes; the challenge is the
base64url of the digest of the verifier's `TextEncoder` byte
representation. -/
def generatePkcePair (randomBytes : List Nat) (sha256 : List Nat → List Nat) : PkcePair :=
  let verifier := base64Url randomBytes
  let digest := sha256 (utf8Encode verifier)
  let challenge := base64Url digest
  ⟨verifier, challenge⟩

/-! ## Backend data model (`apps/backend/src/db/schema.ts`, `google.ts`) -/

/-- A row of the `users` table as declared in `apps/backend/src/db/schema.ts`:
`id`, `username`, `email` (non-null), `password_hash`, `display_name`,
`created_at`, `updated_at` (nullable).  The table has no `googleId` column.
Timestamps are modelled as epoch integers. -/
structure DbUser where
  id : String
  username : String
  email : String
  passwordHash : Option String
  displayName : Option String
  createdAt : Option Int
  updatedAt : Option Int
  deriving Repr, DecidableEq

/-- `email_verified` arrives from Google's tokeninfo endpoint as either the
string `"true"`/`"false"` or a boolean (`string | boolean` in the source). -/
inductive StrOrBool where
  | str (s : String)
  | boolean (b : Bool)
  deriving Repr, DecidableEq

/-- `GoogleTokenInfo` from `google.ts`: the parsed body of Google's
tokeninfo response.  `email`/`name` are typed `string` but the verifying
code defends against their absence with `??`, so they are optional here. -/
structure GoogleTokenInfo where
  aud : String
  email : Option String
  email_verified : StrOrBool
  name : Option String
  picture : Option String
  sub : String
  deriving Repr, DecidableEq

/-- `GoogleTokenResponse` from `google.ts`: the parsed body of Google's token
endpoint response.  `id_token` is typed `string` but the code checks its
truthiness, so absence and the empty string are both representable. -/
structure GoogleTokenResponse where
  id_token : Option String
  refresh_token : Option String
  deriving Repr, DecidableEq

/-- `GoogleTokenPayload` from `google.ts`: verified Google identity claims. -/
structure GoogleTokenPayload where
  sub : String
  email : String
  name : String
  picture : Option String
  email_verified : Bool
  deriving Repr, DecidableEq

/-- `AuthUser` from `google.ts`: the application-level user returned by
`findOrCreateUser`. -/
structure AuthUser where
  id : String
  email : String
  username : String
  displayName : String
  avatarUrl : Option String
  googleId : String
  deriving Repr, DecidableEq

/-- `JWTPayload` from `google.ts`: the payload object literal signed by
`generateJWT` — exactly these six fields and nothing else. -/
structure JWTPayload where
  userId : String
  email : String
  googleId : String
  iss : String
  aud : String
  exp : Nat
  deriving Repr, DecidableEq

/-- A token produced by `sign(payload, secret)` of `hono/jwt`, abstracted as
the signed payload together with the signing secret (the sign primitive is
injective in both). -/
structure SignedJwt where
  payload : JWTPayload
  secret : String
  deriving Repr, DecidableEq

/-- The request `exchangeCodeForIdToken` POSTs to Google's token endpoint. -/
structure TokenRequest where
  code : String
  client_id : String
  client_secret : String
  redirect_uri : String
  grant_type : String
  code_verifier : String
  deriving Repr, DecidableEq

/-! ## redirectUri allow-list (`google.ts`)

The source tests `redirectUri` against three anchored regular expressions:
`^http:\/\/localhost:3000\/(gsi-test\.html|auth\/callback)$`,
`^https:\/\/body-tracker\.pages\.dev\/auth\/callback$`, and
`^https:\/\/[a-z0-9-]+\.body-tracker\.pages\.dev\/auth\/callback$`. -/

/-- Membership in the character class `[a-z0-9-]` of the preview-URL
pattern. -/
def previewSubdomainChar (c : Char) : Bool :=
  ('a' ≤ c && c ≤ 'z') || ('0' ≤ c && c ≤ '9') || c = '-'

/-- The fixed tail of the preview-URL pattern, after the subdomain. -/
def previewSuffix : String := ".body-tracker.pages.dev/auth/callback"

/-- `allowedOrigins.some((pattern) => pattern.test(redirectUri))`: the two
localhost alternatives and the production URL are exact strings; the preview
pattern is `https://` ++ a non-empty `[a-z0-9-]` run ++ the fixed suffix
(the class excludes `.`, so the decomposition is unique). -/
def allowedRedirectUri (s : String) : Bool :=
  s = "http://localhost:3000/gsi-test.html" ||
  s = "http://localhost:3000/auth/callback" ||
  s = "https://body-tracker.pages.dev/auth/callback" ||
  (s.startsWith "https://" && s.endsWith previewSuffix &&
    (let mid := (s.drop 8).dropRight previewSuffix.length
     0 < mid.length && mid.toList.all previewSubdomainChar))

/-! ## Code exchange and Google token verification (`google.ts`) -/

/-- `exchangeCodeForIdToken` from `google.ts`.  The `fetch` of Google's token
endpoint is the `tokenEndpoint` oracle; `none` models a network error or a
non-ok response.  Credential and redirect-URI checks happen before the
`try`, so their messages propagate; every failure inside the `try` is caught
and rethrown as `Code exchange failed`. -/
def exchangeCodeForIdToken (code codeVerifier redirectUri : String)
    (clientId clientSecret : String)
    (tokenEndpoint : TokenRequest → Option GoogleTokenResponse) :
    Except String (String × Option String) :=
  if clientId = "" || clientSecret = "" then
    .error "Google OAuth client credentials not set"
  else if !allowedRedirectUri redirectUri then
    .error "Invalid redirectUri"
  else
    match tokenEndpoint ⟨code, clientId, clientSecret, redirectUri,
        "authorization_code", codeVerifier⟩ with
    | none => .error "Code exchange failed"
    | some tokens =>
      match tokens.id_token with
      | none => .error "Code exchange failed"
      | some idToken =>
        if idToken = "" then .error "Code exchange failed"
        else .ok (idToken, tokens.refresh_token)

/-- `verifyGoogleToken` from `google.ts` (the tokeninfo variant).  The
tokeninfo `fetch` is the `tokeninfo` oracle; `none` models a non-ok
response.  Both the fetch failure and the audience mismatch are caught and
rethrown as `Invalid Google token`. -/
def verifyGoogleToken (credential clientId : String)
    (tokeninfo : String → Option GoogleTokenInfo) :
    Except String GoogleTokenPayload :=
  match tokeninfo credential with
  | none => .error "Invalid Google token"
  | some payload =>
    if payload.aud ≠ clientId then .error "Invalid Google token"
    else
      .ok { sub := payload.sub
            email := payload.email.getD "no email"
            name := payload.name.getD "no name"
            picture := payload.picture
            email_verified :=
              payload.email_verified = .str "true" || payload.email_verified = .boolean true }

/-! ## User resolution (`findOrCreateUser` in `google.ts`) -/

/-- JavaScript `x || y` for a nullable string column: the fallback applies
when the stored value is null or the empty string. -/
def jsStrOr (x : Option String) (y : String) : String :=
  match x with
  | some s => if s = "" then y else s
  | none => y

/-- `findOrCreateUser` from `google.ts`.  The database is a list of `users`
rows; `select … where eq(email) … limit 1` is the first matching row.
`freshId` models the `uuid` default of the `id` column, `nowMs` the
`Date.now()` used for the generated username.  Returns the `AuthUser`
together with the database after the call. -/
def findOrCreateUser (p : GoogleTokenPayload) (db : List DbUser)
    (freshId : String) (nowMs : Nat) : AuthUser × List DbUser :=
  match db.find? (fun u => u.email = p.email) with
  | some user =>
    ({ id := user.id
       email := user.email
       username := user.username
       displayName := jsStrOr user.displayName p.name
       avatarUrl := p.picture
       googleId := p.sub }, db)
  | none =>
    let newUser : DbUser :=
      { id := freshId
        username := "user_" ++ toString nowMs
        email := p.email
        passwordHash := none
        displayName := some p.name
        createdAt := none
        updatedAt := none }
    ({ id := newUser.id
       email := newUser.email
       username := newUser.username
       displayName := jsStrOr newUser.displayName p.name
       avatarUrl := p.picture
       googleId := p.sub }, db ++ [newUser])

/-! ## JWT issuance and verification (`google.ts`) -/

/-- `generateJWT` from `google.ts` (the Hono variant): throws when the secret
is unset, otherwise signs exactly `{userId, email, googleId, iss, aud, exp}`
with `exp` thirty days (in seconds) after `Math.floor(Date.now() / 1000)`. -/
def generateJWT (user : AuthUser) (jwtSecret : String) (nowMs : Nat) :
    Except String SignedJwt :=
  if jwtSecret = "" then
    .error "JWT_SECRET environment variable is not set"
  else
    .ok { payload :=
            { userId := user.id
              email := user.email
              googleId := user.googleId
              iss := "body-tracker"
              aud := "body-tracker-users"
              exp := nowMs / 1000 + 60 * 60 * 24 * 30 }
          secret := jwtSecret }

/-- The distinct failure kinds of the `verify` primitive of `hono/jwt`
(`JwtTokenExpired`, `JwtTokenSignatureMismatched`, and the remaining
malformed-token errors). -/
inductive HonoJwtError where
  | expired
  | signatureMismatched
  | invalid
  deriving Repr, DecidableEq

/-- The verification primitive `verify` of `hono/jwt`, specialised to our
signed-token model: signature check against the secret, then the `exp`
claim against the current time (seconds). -/
def honoVerify (token : SignedJwt) (secret : String) (nowSec : Nat) :
    Except HonoJwtError JWTPayload :=
  if token.secret ≠ secret then .error .signatureMismatched
  else if token.payload.exp < nowSec then .error .expired
  else .ok token.payload

/-- `verifyJWT` from `google.ts` (the Hono variant): throws when the secret
is unset; otherwise every failure of the underlying `verify` — expiry
included — is caught and rethrown as the single message
`Token verification failed`. -/
def verifyJWT (token : SignedJwt) (jwtSecret : String) (nowSec : Nat) :
    Except String JWTPayload :=
  if jwtSecret = "" then
    .error "JWT_SECRET environment variable is not set"
  else
    match honoVerify token jwtSecret nowSec with
    | .ok p => .ok p
    | .error _ => .error "Token verification failed"

/-! ## Auth middleware (`apps/backend/src/middleware/auth.ts`)

The middleware receives the raw `Authorization` header.  At line 43 it
calls the async `verifyJWT(token, env.JWT_SECRET)` **without `await`**, so
`decoded` is a promise object: the `typeof decoded === 'string'` guard can
never fire, the promise itself is stored as the context `user`, and a
rejection of the un-awaited promise is not caught by the surrounding
`try`/`catch` — the catch branches for `expired` / `Invalid token` are
unreachable from the verification path.  The eventual outcome of that
promise is the `verifyJWTResult` oracle applied to the extracted token
string; the embedding records it unexamined, exactly as the code does. -/

/-- The value the middleware stores in the request context: the un-awaited
`verifyJWT` promise, carrying its eventual outcome. -/
instance : DecidableEq (Except String JWTPayload) := fun a b =>
  match a, b with
  | .ok x, .ok y =>
    match decEq x y with
    | isTrue h => isTrue (by rw [h])
    | isFalse h => isFalse (by intro hc; cases hc; exact h rfl)
  | .error x, .error y =>
    match decEq x y with
    | isTrue h => isTrue (by rw [h])
    | isFalse h => isFalse (by intro hc; cases hc; exact h rfl)
  | .ok _, .error _ => isFalse (by intro hc; cases hc)
  | .error _, .ok _ => isFalse (by intro hc; cases hc)

inductive CtxUser where
  | pendingPromise (eventual : Except String JWTPayload)
  deriving Repr, DecidableEq

/-- The observable outcome of the middleware on one request: an early JSON
error response, or falling through to `await next()` with the stored
context user. -/
inductive MwOutcome where
  | respond (status : Nat) (error : String)
  | proceed (user : CtxUser)
  deriving Repr, DecidableEq

/-- JavaScript `s.startsWith(p)`: the first code units of `s` are `p`. -/
def jsStartsWith (s p : String) : Bool :=
  s.toList.take p.toList.length = p.toList

/-- JavaScript `s.substring(n)`: the code units of `s` from index `n` on. -/
def jsSubstringFrom (s : String) (n : Nat) : String :=
  ⟨s.toList.drop n⟩

/-- `authMiddleware` from `middleware/auth.ts`. -/
def authMiddleware (authHeader : Option String)
    (verifyJWTResult : String → Except String JWTPayload) : MwOutcome :=
  match authHeader with
  | none => .respond 401 "Authorization header required"
  | some h =>
    if !jsStartsWith h "Bearer " then .respond 401 "Bearer token required"
    else
      let token := jsSubstringFrom h 7
      if token = "" then .respond 401 "Token is empty"
      else .proceed (.pendingPromise (verifyJWTResult token))

/-! ## The `POST /auth/google/code` route (`apps/backend/src/routes/auth.ts`) -/

/-- The JSON body of `POST /auth/google/code`; `none` models a missing or
non-string field (the validator tests `typeof value.x !== 'string'`). -/
structure CodeBody where
  code : Option String
  codeVerifier : Option String
  redirectUri : Option String
  deriving Repr, DecidableEq

/-- The backend environment bindings the handler reads. -/
structure AuthEnv where
  googleClientId : String
  googleClientSecret : String
  jwtSecret : String
  deriving Repr, DecidableEq

/-- The `user` object of the success response body. -/
structure PublicUser where
  id : String
  email : String
  name : String
  picture : Option String
  deriving Repr, DecidableEq

/-- The response of the `/auth/google/code` handler: the session body
`{user, token, flow: 'code'}` (status 200), or a JSON error with a status. -/
inductive CodeRouteResponse where
  | session (user : PublicUser) (token : SignedJwt)
  | err (status : Nat) (error : String)
  deriving Repr, DecidableEq

/-- `auth.post('/google/code', …)` from `routes/auth.ts`: the inline
validator (400 on a missing/empty field), then the exchange, Google token
verification, the `email_verified` check (400), user resolution, and JWT
issuance; any error thrown inside the handler's `try` becomes a 500 with
`Code flow authentication failed`.  Returns the response together with the
database after the call. -/
def postGoogleCode (body : CodeBody) (env : AuthEnv)
    (tokenEndpoint : TokenRequest → Option GoogleTokenResponse)
    (tokeninfo : String → Option GoogleTokenInfo)
    (db : List DbUser) (freshId : String) (nowMs : Nat) :
    CodeRouteResponse × List DbUser :=
  match body.code with
  | none => (.err 400 "code required", db)
  | some c =>
    if c = "" then (.err 400 "code required", db)
    else
      match body.codeVerifier with
      | none => (.err 400 "codeVerifier required", db)
      | some v =>
        if v = "" then (.err 400 "codeVerifier required", db)
        else
          match body.redirectUri with
          | none => (.err 400 "redirectUri required", db)
          | some r =>
            if r = "" then (.err 400 "redirectUri required", db)
            else
              match exchangeCodeForIdToken c v r env.googleClientId
                  env.googleClientSecret tokenEndpoint with
              | .error _ => (.err 500 "Code flow authentication failed", db)
              | .ok (idToken, _) =>
                match verifyGoogleToken idToken env.googleClientId tokeninfo with
                | .error _ => (.err 500 "Code flow authentication failed", db)
                | .ok googlePayload =>
                  if !googlePayload.email_verified then
                    (.err 400 "Email not verified by Google", db)
                  else
                    let (user, db') := findOrCreateUser googlePayload db freshId nowMs
                    match generateJWT user env.jwtSecret nowMs with
                    | .error _ => (.err 500 "Code flow authentication failed", db')
                    | .ok token =>
                      (.session { id := user.id
                                  email := user.email
                                  name := user.displayName
                                  picture := user.avatarUrl } token, db')

/-! ## Client session store (`apps/frontend/src/auth/services/authStorage.ts`)

`localStorage` holds three keys — `authToken`, `authUser`, `authExpiresAt`
(`AUTH_STORAGE_KEYS`) — all strings.  The `authUser` slot is abstracted by
the outcome of `JSON.parse` on the stored string (a platform primitive):
the empty string (falsy, returned as absent before parsing), a string that
fails to parse, or a parsed JSON value. -/

/-- What the `authUser` key holds, abstracted by its `JSON.parse` outcome. -/
inductive UserSlot where
  | emptyStr
  | unparsable
  | parsed (j : Json)

/-- The three `localStorage` keys owned by the store (`none` = key absent). -/
structure LocalStorage where
  authToken : Option String
  authUser : Option UserSlot
  authExpiresAt : Option String

/-- `Number.parseInt(s, 10)`: skip leading whitespace, optional sign, then
the leading run of decimal digits; `none` models `NaN`. -/
def parseIntJs (s : String) : Option Int :=
  let cs := s.toList.dropWhile Char.isWhitespace
  let digitsVal : List Char → Nat → Nat := fun l acc =>
    l.takeWhile Char.isDigit |>.foldl (fun a c => a * 10 + (c.toNat - 48)) acc
  match cs with
  | '-' :: rest =>
    match rest with
    | c :: _ => if c.isDigit then some (-(digitsVal rest 0 : Int)) else none
    | [] => none
  | '+' :: rest =>
    match rest with
    | c :: _ => if c.isDigit then some (digitsVal rest 0 : Int) else none
    | [] => none
  | c :: _ => if c.isDigit then some (digitsVal cs 0 : Int) else none
  | [] => none

/-- `StoredAuthData` from `auth.types.ts` as `load` returns it: the token,
the parsed user value, and the optional numeric expiry (`none` covers both
an absent key and a `NaN` parse, which all uses treat alike as falsy;
`some 0` is also falsy at every use site and is handled there). -/
structure StoredAuthData where
  token : String
  user : Json
  expiresAt : Option Int

/-- `getToken`: the stored string, with the empty string falsy → `null`. -/
def getToken (st : LocalStorage) : Option String :=
  match st.authToken with
  | some t => if t = "" then none else some t
  | none => none

/-- `removeToken` / `removeUser` / the expiry removal of `clearAll`. -/
def removeToken (st : LocalStorage) : LocalStorage := { st with authToken := none }

/-- Remove the `authUser` key. -/
def removeUser (st : LocalStorage) : LocalStorage := { st with authUser := none }

/-- `clearAll`: remove all three keys. -/
def clearAll (_st : LocalStorage) : LocalStorage := ⟨none, none, none⟩

/-- `getUser`: absent or empty string → `null` untouched; a parse failure is
caught and a malformed parse result rejected by `isUser` — both delete the
`authUser` key and return `null`; a valid parsed value is returned as is. -/
def getUser (st : LocalStorage) : Option Json × LocalStorage :=
  match st.authUser with
  | none => (none, st)
  | some .emptyStr => (none, st)
  | some .unparsable => (none, removeUser st)
  | some (.parsed j) =>
    if isUser j then (some j, st) else (none, removeUser st)

/-- `getAuthData` (the store's `load`): reads token and user; on a partial
record — one of the two present, the other absent — clears all keys and
returns `null`; with both present it also reads and parses the expiry key
(empty string falsy → absent). -/
def getAuthData (st : LocalStorage) : Option StoredAuthData × LocalStorage :=
  let token := getToken st
  let (user, st1) := getUser st
  match token, user with
  | some t, some u =>
    let expiresAt :=
      match st1.authExpiresAt with
      | some s => if s = "" then none else parseIntJs s
      | none => none
    (some ⟨t, u, expiresAt⟩, st1)
  | none, none => (none, st1)
  | _, _ => (none, clearAll st1)

/-- `saveAuthData` (the store's `save`): writes the token and the user's
JSON; writes the expiry key only when `expiresAt` is truthy (present and
nonzero), leaving it untouched otherwise. -/
def saveAuthData (token : String) (user : Json) (expiresAt : Option Int)
    (st : LocalStorage) : LocalStorage :=
  let st1 : LocalStorage :=
    { st with authToken := some token, authUser := some (.parsed user) }
  match expiresAt with
  | some e => if e ≠ 0 then { st1 with authExpiresAt := some (toString e) } else st1
  | none => st1

/-- `hasValidAuthData` (the store's `hasValid`): literally
`getAuthData() !== null` — no expiry comparison. -/
def hasValidAuthData (st : LocalStorage) : Bool × LocalStorage :=
  let (d, st1) := getAuthData st
  (d.isSome, st1)

/-- `isTokenValid`: loads the record; with a truthy stored expiry at or
before `Date.now()` it clears all keys and returns false; otherwise a
complete record is valid. -/
def isTokenValid (st : LocalStorage) (nowMs : Int) : Bool × LocalStorage :=
  let (d, st1) := getAuthData st
  match d with
  | none => (false, st1)
  | some a =>
    match a.expiresAt with
    | some e =>
      if e ≠ 0 then
        (if nowMs ≥ e then (false, clearAll st1) else (true, st1))
      else (true, st1)
    | none => (true, st1)

/-! ## Callback coordinator (`apps/frontend/src/auth/services/authCodeFlow.ts`)

`handleAuthCallback` parses `code` and `state` from the redirect URL (the
two extracted query parameters are its inputs here), consults the stashed
PKCE verifier in `sessionStorage`, and drives the exchange.  The backend
call `exchangeAuthorizationCode` is the `exchange` oracle: it resolves with
the `{user, token}` response body or rejects with an error message. -/

/-- `AuthErrorCode` from `apps/frontend/src/auth/domain/result.ts`: the
five-member string-literal union of the flow's tagged error codes,
`'CODE_MISSING' | 'STATE_MISMATCH' | 'PKCE_VERIFIER_MISSING' |
'CODE_EXCHANGE_FAILED' | 'UNKNOWN'`. -/
inductive AuthErrorCode where
  | CODE_MISSING
  | STATE_MISMATCH
  | PKCE_VERIFIER_MISSING
  | CODE_EXCHANGE_FAILED
  | UNKNOWN
  deriving Repr, DecidableEq

/-- `Result<null>` from `domain/result.ts` as `handleAuthCallback` returns
it: `ok(null)` (`{ok: true, value: null}`), or `err(toAuthError(code,
message, cause?))` (`{ok: false, error: {code, message, cause?}}`).
Failures are returned, never thrown.  The optional `cause` — the opaque
`unknown` exception value attached at the `CODE_EXCHANGE_FAILED` call
site — has no observable structure and is not carried. -/
inductive CallbackResult where
  | ok
  | err (code : AuthErrorCode) (message : String)
  deriving Repr, DecidableEq

/-- The client-side storage reachable from the flow: the `sessionStorage`
key `pkce_verifier` plus the `localStorage` session store. -/
structure ClientStorage where
  pkceVerifier : Option String
  localStore : LocalStorage

/-- `handleAuthCallback` from `authCodeFlow.ts`, over the extracted `code`
and `state` query parameters.  `exchange code verifier` is the awaited
outcome of `exchangeAuthorizationCode` (the `redirectUri` it posts is
derived from `window.location.origin` and does not vary per call site).
`if (!code)` is a JavaScript falsy check, so both an absent `code`
parameter (`null`) and an empty one (`?code=` giving `""`) yield
`CODE_MISSING`.  Returns the tagged result together with the storage after
the call. -/
def handleAuthCallback (code state : Option String)
    (exchange : String → String → Except String (Json × String))
    (st : ClientStorage) : CallbackResult × ClientStorage :=
  match code with
  | none => (.err .CODE_MISSING "code missing", st)
  | some c =>
    if c = "" then (.err .CODE_MISSING "code missing", st)
    else if state ≠ some "login" then (.err .STATE_MISMATCH "state mismatch", st)
    else
      match st.pkceVerifier with
      | none => (.err .PKCE_VERIFIER_MISSING "verifier missing (restart login)", st)
      | some verifier =>
        if verifier = "" then
          (.err .PKCE_VERIFIER_MISSING "verifier missing (restart login)", st)
        else
          match exchange c verifier with
          | .error msg =>
            (.err .CODE_EXCHANGE_FAILED (if msg = "" then "code exchange failed" else msg), st)
          | .ok (user, token) =>
            let st1 : ClientStorage :=
              { st with localStore := saveAuthData token user none st.localStore }
            (.ok, { st1 with pkceVerifier := none })

/-! ## Session reconciler init (`apps/frontend/src/auth/hooks/useAuthState.ts`)

`initializeAuthState` reads the store; with a stored session it first sets
the optimistic state to the authenticated projection, then awaits
`getCurrentUser(token)` (the `/auth/me` fetch — the `fetchMe` oracle, whose
success value is the parsed response body): success replaces the
authoritative state with the fresher identity, failure is caught, clears the
store, and sets both states logged out.  Every path ends in a well-defined
state; nothing is thrown to the caller. -/

/-- `AuthState` from `auth.types.ts` (the user value is the parsed JSON the
code carries under the `User` type). -/
structure AuthState where
  user : Option Json
  isAuthenticated : Bool
  isLoading : Bool
  token : Option String

/-- The two state cells of the hook: the authoritative (`actualState`) and
optimistic (`optimisticState`) views. -/
structure HookState where
  actual : AuthState
  optimistic : AuthState

/-- The logged-out state written on revalidation failure. -/
def loggedOutState : AuthState :=
  { user := none, isAuthenticated := false, token := none, isLoading := false }

/-- Everything observable about one `initializeAuthState` run: the
optimistic projection set before the fetch resolves (if any), the final
state cells, and the store afterwards. -/
structure InitOutcome where
  projected : Option AuthState
  final : HookState
  storage : LocalStorage

/-- `initializeAuthState` from `useAuthState.ts`. -/
def initializeAuthState (st : LocalStorage)
    (fetchMe : String → Except Unit Json) (s : HookState) : InitOutcome :=
  match getAuthData st with
  | (none, st1) =>
    { projected := none
      final := { s with actual := { s.actual with isLoading := false } }
      storage := st1 }
  | (some d, st1) =>
    let proj : AuthState :=
      { user := some d.user, isAuthenticated := true, token := some d.token,
        isLoading := false }
    let s1 : HookState := { s with optimistic := proj }
    match fetchMe d.token with
    | .ok currentUser =>
      let validated : AuthState :=
        { user := some currentUser, isAuthenticated := true,
          token := some d.token, isLoading := false }
      { projected := some proj
        final := { s1 with actual := validated }
        storage := st1 }
    | .error _ =>
      { projected := some proj
        final := { actual := loggedOutState, optimistic := loggedOutState }
        storage := clearAll st1 }

/-! ## Helper lemmas -/

/-- `List.getD` returns either the default or a member of the list. -/
lemma getD_mem_cons {α : Type} : ∀ (l : List α) (n : Nat) (d : α), l.getD n d ∈ d :: l
  | [], _, _ => by rw [List.getD_nil]; exact List.mem_cons_self _ _
  | a :: l, 0, d => by
    rw [List.getD_cons_zero]
    exact List.mem_cons_of_mem _ (List.mem_cons_self _ _)
  | a :: l, n + 1, d => by
    rw [List.getD_cons_succ]
    rcases List.mem_cons.mp (getD_mem_cons l n d) with h | h
    · rw [h]; exact List.mem_cons_self _ _
    · exact List.mem_cons_of_mem _ (List.mem_cons_of_mem _ h)

/-- No base64 alphabet character is the padding character. -/
lemma b64char_ne_pad (n : Nat) : b64char n ≠ '=' := by
  have hmem := getD_mem_cons base64Alphabet.toList n 'A'
  have hall : ∀ c ∈ 'A' :: base64Alphabet.toList, c ≠ '=' := by decide
  exact hall _ hmem

/-- The URL-safe replacement maps non-padding characters to non-padding
characters. -/
lemma base64UrlRepl_ne_pad {c : Char} (h : c ≠ '=') : base64UrlRepl c ≠ '=' := by
  unfold base64UrlRepl
  split
  · decide
  · split
    · decide
    · exact h

/-- Dropping the trailing padding of a list with no padding is the
identity. -/
lemma dropTrailingEq_of_no_pad {cs : List Char} (h : ∀ c ∈ cs, c ≠ '=') :
    dropTrailingEq cs = cs := by
  unfold dropTrailingEq
  have : cs.reverse.dropWhile (· = '=') = cs.reverse := by
    cases hrev : cs.reverse with
    | nil => simp
    | cons a t =>
      have ha : a ∈ cs := by
        have : a ∈ cs.reverse := hrev ▸ List.mem_cons_self a t
        exact List.mem_reverse.mp this
      rw [List.dropWhile_cons]
      simp [h a ha]
  rw [this, List.reverse_reverse]

/-- Dropping trailing padding from `front ++ back` when `front` is
padding-free: the result is `front` with `back`'s trailing padding
dropped appended. -/
lemma dropTrailingEq_append_no_pad {front back : List Char}
    (h : ∀ c ∈ front, c ≠ '=') :
    dropTrailingEq (front ++ back) = front ++ dropTrailingEq back := by
  unfold dropTrailingEq
  rw [List.reverse_append, List.dropWhile_append]
  by_cases hb : (back.reverse.dropWhile (· = '=')).isEmpty = true
  · rw [if_pos hb]
    rw [List.isEmpty_iff] at hb
    rw [hb]
    have hfr : front.reverse.dropWhile (· = '=') = front.reverse := by
      cases hrev : front.reverse with
      | nil => simp
      | cons a t =>
        have ha : a ∈ front := by
          have : a ∈ front.reverse := hrev ▸ List.mem_cons_self a t
          exact List.mem_reverse.mp this
        rw [List.dropWhile_cons]
        simp [h a ha]
    rw [hfr, List.reverse_reverse]
    simp
  · rw [if_neg hb]
    rw [List.reverse_append, List.reverse_reverse]

/-- Every character of a `base64Url` encoding avoids the padding character:
the encoding is padding-free. -/
lemma base64Url_no_pad (bytes : List Nat) :
    ∀ c ∈ (base64Url bytes).toList, c ≠ '=' := by
  show ∀ c ∈ dropTrailingEq ((base64Encode bytes).map base64UrlRepl), c ≠ '='
  induction bytes using base64Encode.induct with
  | case1 =>
    simp [base64Encode, dropTrailingEq]
  | case2 b1 =>
    intro c hc
    simp only [base64Encode, List.map] at hc
    rw [show base64UrlRepl '=' = '=' from by decide] at hc
    rw [show ([base64UrlRepl (b64char (b1 / 4)), base64UrlRepl (b64char (b1 % 4 * 16)), '=', '='] =
        [base64UrlRepl (b64char (b1 / 4)), base64UrlRepl (b64char (b1 % 4 * 16))] ++ ['=', '='])
      from rfl] at hc
    rw [dropTrailingEq_append_no_pad (by
      intro x hx
      simp only [List.mem_cons, List.mem_singleton] at hx
      rcases hx with h | h | h
      · exact h ▸ base64UrlRepl_ne_pad (b64char_ne_pad _)
      · exact h ▸ base64UrlRepl_ne_pad (b64char_ne_pad _)
      · cases h)] at hc
    rw [show dropTrailingEq ['=', '='] = [] from by decide] at hc
    simp only [List.append_nil, List.mem_cons, List.mem_singleton] at hc
    rcases hc with h | h | h
    · exact h ▸ base64UrlRepl_ne_pad (b64char_ne_pad _)
    · exact h ▸ base64UrlRepl_ne_pad (b64char_ne_pad _)
    · cases h
  | case3 b1 b2 =>
    intro c hc
    simp only [base64Encode, List.map] at hc
    rw [show base64UrlRepl '=' = '=' from by decide] at hc
    rw [show ([base64UrlRepl (b64char (b1 / 4)), base64UrlRepl (b64char (b1 % 4 * 16 + b2 / 16)),
          base64UrlRepl (b64char (b2 % 16 * 4)), '='] =
        [base64UrlRepl (b64char (b1 / 4)), base64UrlRepl (b64char (b1 % 4 * 16 + b2 / 16)),
          base64UrlRepl (b64char (b2 % 16 * 4))] ++ ['='])
      from rfl] at hc
    rw [dropTrailingEq_append_no_pad (by
      intro x hx
      simp only [List.mem_cons, List.mem_singleton] at hx
      rcases hx with h | h | h | h
      · exact h ▸ base64UrlRepl_ne_pad (b64char_ne_pad _)
      · exact h ▸ base64UrlRepl_ne_pad (b64char_ne_pad _)
      · exact h ▸ base64UrlRepl_ne_pad (b64char_ne_pad _)
      · cases h)] at hc
    rw [show dropTrailingEq ['='] = [] from by decide] at hc
    simp only [List.append_nil, List.mem_cons, List.mem_singleton] at hc
    rcases hc with h | h | h | h
    · exact h ▸ base64UrlRepl_ne_pad (b64char_ne_pad _)
    · exact h ▸ base64UrlRepl_ne_pad (b64char_ne_pad _)
    · exact h ▸ base64UrlRepl_ne_pad (b64char_ne_pad _)
    · cases h
  | case4 b1 b2 b3 rest ih =>
    intro c hc
    simp only [base64Encode, List.map_cons] at hc
    rw [show (base64UrlRepl (b64char (b1 / 4)) :: base64UrlRepl (b64char (b1 % 4 * 16 + b2 / 16)) ::
        base64UrlRepl (b64char (b2 % 16 * 4 + b3 / 64)) :: base64UrlRepl (b64char (b3 % 64)) ::
        (base64Encode rest).map base64UrlRepl =
        [base64UrlRepl (b64char (b1 / 4)), base64UrlRepl (b64char (b1 % 4 * 16 + b2 / 16)),
          base64UrlRepl (b64char (b2 % 16 * 4 + b3 / 64)), base64UrlRepl (b64char (b3 % 64))] ++
        (base64Encode rest).map base64UrlRepl) from rfl] at hc
    rw [dropTrailingEq_append_no_pad (by
      intro x hx
      simp only [List.mem_cons, List.mem_singleton] at hx
      rcases hx with h | h | h | h | h
      · exact h ▸ base64UrlRepl_ne_pad (b64char_ne_pad _)
      · exact h ▸ base64UrlRepl_ne_pad (b64char_ne_pad _)
      · exact h ▸ base64UrlRepl_ne_pad (b64char_ne_pad _)
      · exact h ▸ base64UrlRepl_ne_pad (b64char_ne_pad _)
      · cases h)] at hc
    rcases List.mem_append.mp hc with h | h
    · simp only [List.mem_cons, List.mem_singleton] at h
      rcases h with h | h | h | h | h
      · exact h ▸ base64UrlRepl_ne_pad (b64char_ne_pad _)
      · exact h ▸ base64UrlRepl_ne_pad (b64char_ne_pad _)
      · exact h ▸ base64UrlRepl_ne_pad (b64char_ne_pad _)
      · exact h ▸ base64UrlRepl_ne_pad (b64char_ne_pad _)
      · cases h
    · exact ih c h

/-! ## Claim theorems -/

/-- C3: For every pair returned by `generatePkcePair`, the verifier is the
base64url encoding (without padding — no `=` occurs in it) of the 32 drawn
random bytes, and the challenge equals the base64url encoding (without
padding) of the SHA-256 digest of the verifier's UTF-8 byte
representation (the digest primitive quantified as an oracle). -/
theorem generatePkcePair_spec (randomBytes : List Nat)
    (sha256 : List Nat → List Nat) (_hlen : randomBytes.length = 32) :
    (generatePkcePair randomBytes sha256).verifier = base64Url randomBytes ∧
    (generatePkcePair randomBytes sha256).challenge =
      base64Url (sha256 (utf8Encode (generatePkcePair randomBytes sha256).verifier)) ∧
    (∀ c ∈ (generatePkcePair randomBytes sha256).verifier.toList, c ≠ '=') ∧
    (∀ c ∈ (generatePkcePair randomBytes sha256).challenge.toList, c ≠ '=') :=
  ⟨rfl, rfl, base64Url_no_pad randomBytes,
    base64Url_no_pad (sha256 (utf8Encode (base64Url randomBytes)))⟩

/-- Witness for `generatePkcePair_spec`: the hypothesis holds and the
conclusion evaluates at 32 zero bytes and the trivial digest oracle. -/
theorem generatePkcePair_spec_witness :
    (List.replicate 32 0).length = 32 ∧
    (generatePkcePair (List.replicate 32 0) (fun _ => [255])).verifier =
      base64Url (List.replicate 32 0) := by
  refine ⟨by decide, ?_⟩
  exact (generatePkcePair_spec (List.replicate 32 0) (fun _ => [255]) (by decide)).1

/-- C5: For every user and (set) secret, `generateJWT` signs with that
secret a payload consisting of exactly `userId`, `email`, `googleId` from
the user plus `iss = 'body-tracker'`, `aud = 'body-tracker-users'`, and
`exp` equal to the issuance time (in seconds) plus 30 days — the
`JWTPayload` structure has no other fields. -/
theorem generateJWT_spec (user : AuthUser) (jwtSecret : String) (nowMs : Nat)
    (hsecret : jwtSecret ≠ "") :
    generateJWT user jwtSecret nowMs =
      .ok { payload :=
              { userId := user.id
                email := user.email
                googleId := user.googleId
                iss := "body-tracker"
                aud := "body-tracker-users"
                exp := nowMs / 1000 + 30 * 24 * 60 * 60 }
            secret := jwtSecret } := by
  unfold generateJWT
  rw [if_neg hsecret]

/-- Witness for `generateJWT_spec` at a concrete user, secret and time. -/
theorem generateJWT_spec_witness :
    ("s3cret" : String) ≠ "" ∧
    generateJWT ⟨"u1", "a@example.com", "user_1", "Alice", none, "g-123"⟩
        "s3cret" 1700000000000 =
      .ok { payload :=
              { userId := "u1"
                email := "a@example.com"
                googleId := "g-123"
                iss := "body-tracker"
                aud := "body-tracker-users"
                exp := 1700000000000 / 1000 + 30 * 24 * 60 * 60 }
            secret := "s3cret" } :=
  ⟨by decide,
    generateJWT_spec ⟨"u1", "a@example.com", "user_1", "Alice", none, "g-123"⟩
      "s3cret" 1700000000000 (by decide)⟩

/-! ### `findOrCreateUser` lemmas -/

/-- The found-row branch of `findOrCreateUser`: no insert, identity and
username from the stored row, avatar from the fresh claims. -/
lemma findOrCreateUser_found {p : GoogleTokenPayload} {db : List DbUser}
    {row : DbUser} (freshId : String) (nowMs : Nat)
    (hfind : db.find? (fun u => u.email = p.email) = some row) :
    findOrCreateUser p db freshId nowMs =
      ({ id := row.id
         email := row.email
         username := row.username
         displayName := jsStrOr row.displayName p.name
         avatarUrl := p.picture
         googleId := p.sub }, db) := by
  unfold findOrCreateUser
  rw [hfind]

/-- The no-row branch of `findOrCreateUser`: a row with the generated
username and the claims' display name is inserted. -/
lemma findOrCreateUser_created {p : GoogleTokenPayload} {db : List DbUser}
    (freshId : String) (nowMs : Nat)
    (hfind : db.find? (fun u => u.email = p.email) = none) :
    findOrCreateUser p db freshId nowMs =
      ({ id := freshId
         email := p.email
         username := "user_" ++ toString nowMs
         displayName := jsStrOr (some p.name) p.name
         avatarUrl := p.picture
         googleId := p.sub },
        db ++ [{ id := freshId
                 username := "user_" ++ toString nowMs
                 email := p.email
                 passwordHash := none
                 displayName := some p.name
                 createdAt := none
                 updatedAt := none }]) := by
  unfold findOrCreateUser
  rw [hfind]

/-- The stored display name falls back to the claims' name exactly when it
is null or empty. -/
lemma jsStrOr_cases (x : Option String) (y : String) :
    (x = none ∨ x = some "" → jsStrOr x y = y) ∧
    (∀ d, x = some d → d ≠ "" → jsStrOr x y = d) := by
  constructor
  · rintro (h | h) <;> simp [h, jsStrOr]
  · intro d hd hne
    simp [hd, jsStrOr, hne]

/-- A user created or found by `findOrCreateUser` carries the claims' email,
and a second call with the same email finds the same row: same `id`. -/
lemma findOrCreateUser_same_email_same_id (p p' : GoogleTokenPayload)
    (db : List DbUser) (freshId : String) (nowMs : Nat)
    (freshId' : String) (nowMs' : Nat) (hmail : p'.email = p.email) :
    (findOrCreateUser p' (findOrCreateUser p db freshId nowMs).2 freshId' nowMs').1.id =
      (findOrCreateUser p db freshId nowMs).1.id := by
  cases hfind : db.find? (fun u => u.email = p.email) with
  | some row =>
    rw [findOrCreateUser_found freshId nowMs hfind]
    have hfind' : db.find? (fun u => u.email = p'.email) = some row := by
      rw [hmail]; exact hfind
    rw [findOrCreateUser_found freshId' nowMs' hfind']
  | none =>
    rw [findOrCreateUser_created freshId nowMs hfind]
    have hfind' :
        (db ++ [({ id := freshId
                   username := "user_" ++ toString nowMs
                   email := p.email
                   passwordHash := none
                   displayName := some p.name
                   createdAt := none
                   updatedAt := none } : DbUser)]).find? (fun u => u.email = p'.email) =
          some { id := freshId
                 username := "user_" ++ toString nowMs
                 email := p.email
                 passwordHash := none
                 displayName := some p.name
                 createdAt := none
                 updatedAt := none } := by
      rw [List.find?_append]
      rw [hmail, hfind]
      simp [List.find?]
    rw [findOrCreateUser_found freshId' nowMs' hfind']

/-- C7: `findOrCreateUser` is idempotent on email.  When a row with the
claims' email exists, no row is inserted and the returned user carries the
row's `id` and `username`, the stored `displayName` unless it is null or
empty (then the claims' name), and the fresh claims' picture as avatar.
When no row exists, a new row is inserted with the generated username and
the claims' display name.  A second exchange for the same email yields the
same `user.id`. -/
theorem findOrCreateUser_email_idempotent (p : GoogleTokenPayload)
    (db : List DbUser) (freshId : String) (nowMs : Nat) :
    (∀ row, db.find? (fun u => u.email = p.email) = some row →
      (findOrCreateUser p db freshId nowMs).2 = db ∧
      (findOrCreateUser p db freshId nowMs).1.id = row.id ∧
      (findOrCreateUser p db freshId nowMs).1.username = row.username ∧
      (row.displayName = none ∨ row.displayName = some "" →
        (findOrCreateUser p db freshId nowMs).1.displayName = p.name) ∧
      (∀ d, row.displayName = some d → d ≠ "" →
        (findOrCreateUser p db freshId nowMs).1.displayName = d) ∧
      (findOrCreateUser p db freshId nowMs).1.avatarUrl = p.picture) ∧
    (db.find? (fun u => u.email = p.email) = none →
      (findOrCreateUser p db freshId nowMs).2 =
        db ++ [{ id := freshId
                 username := "user_" ++ toString nowMs
                 email := p.email
                 passwordHash := none
                 displayName := some p.name
                 createdAt := none
                 updatedAt := none }] ∧
      (findOrCreateUser p db freshId nowMs).1.username = "user_" ++ toString nowMs ∧
      (findOrCreateUser p db freshId nowMs).1.displayName = p.name) ∧
    (∀ (p' : GoogleTokenPayload) (freshId' : String) (nowMs' : Nat),
      p'.email = p.email →
      (findOrCreateUser p' (findOrCreateUser p db freshId nowMs).2 freshId' nowMs').1.id =
        (findOrCreateUser p db freshId nowMs).1.id) := by
  refine ⟨?_, ?_, ?_⟩
  · intro row hfind
    rw [findOrCreateUser_found freshId nowMs hfind]
    refine ⟨rfl, rfl, rfl, ?_, ?_, rfl⟩
    · exact (jsStrOr_cases row.displayName p.name).1
    · exact (jsStrOr_cases row.displayName p.name).2
  · intro hfind
    rw [findOrCreateUser_created freshId nowMs hfind]
    refine ⟨rfl, rfl, ?_⟩
    show jsStrOr (some p.name) p.name = p.name
    by_cases h : p.name = "" <;> simp [jsStrOr, h]
  · intro p' freshId' nowMs' hmail
    exact findOrCreateUser_same_email_same_id p p' db freshId nowMs freshId' nowMs' hmail

/-- Witness for `findOrCreateUser_email_idempotent`: on an empty database
the creation branch fires, and a second call with the same email returns
the created id. -/
theorem findOrCreateUser_email_idempotent_witness :
    ([] : List DbUser).find?
        (fun u => u.email = (⟨"g1", "a@example.com", "Alice", none, true⟩ :
          GoogleTokenPayload).email) = none ∧
    (findOrCreateUser ⟨"g2", "a@example.com", "Al", none, true⟩
        (findOrCreateUser ⟨"g1", "a@example.com", "Alice", none, true⟩ [] "id-1" 5).2
        "id-2" 6).1.id =
      (findOrCreateUser ⟨"g1", "a@example.com", "Alice", none, true⟩ [] "id-1" 5).1.id := by
  refine ⟨rfl, ?_⟩
  exact (findOrCreateUser_email_idempotent
    ⟨"g1", "a@example.com", "Alice", none, true⟩ [] "id-1" 5).2.2
    ⟨"g2", "a@example.com", "Al", none, true⟩ "id-2" 6 rfl

/-- C10: the `users` schema row (`DbUser`) has no `googleId` column and
`findOrCreateUser` resolves identity by email alone: the returned
`googleId` is always the fresh claims' `sub`, and changing `sub` changes
neither the returned `id` nor the resulting database; two logins with the
same email map to the same local user id regardless of subject. -/
theorem findOrCreateUser_googleId_independent (p : GoogleTokenPayload)
    (db : List DbUser) (freshId : String) (nowMs : Nat) (otherSub : String) :
    (findOrCreateUser p db freshId nowMs).1.googleId = p.sub ∧
    (findOrCreateUser { p with sub := otherSub } db freshId nowMs).1.id =
      (findOrCreateUser p db freshId nowMs).1.id ∧
    (findOrCreateUser { p with sub := otherSub } db freshId nowMs).2 =
      (findOrCreateUser p db freshId nowMs).2 ∧
    (∀ (p' : GoogleTokenPayload) (freshId' : String) (nowMs' : Nat),
      p'.email = p.email →
      (findOrCreateUser p' (findOrCreateUser p db freshId nowMs).2 freshId' nowMs').1.id =
        (findOrCreateUser p db freshId nowMs).1.id) := by
  have hsame : ({ p with sub := otherSub } : GoogleTokenPayload).email = p.email := rfl
  refine ⟨?_, ?_, ?_, ?_⟩
  · cases hfind : db.find? (fun u => u.email = p.email) with
    | some row => rw [findOrCreateUser_found freshId nowMs hfind]
    | none => rw [findOrCreateUser_created freshId nowMs hfind]
  · cases hfind : db.find? (fun u => u.email = p.email) with
    | some row =>
      rw [findOrCreateUser_found freshId nowMs hfind,
        findOrCreateUser_found freshId nowMs (hsame ▸ hfind)]
    | none =>
      rw [findOrCreateUser_created freshId nowMs hfind,
        findOrCreateUser_created freshId nowMs (hsame ▸ hfind)]
  · cases hfind : db.find? (fun u => u.email = p.email) with
    | some row =>
      rw [findOrCreateUser_found freshId nowMs hfind,
        findOrCreateUser_found freshId nowMs (hsame ▸ hfind)]
    | none =>
      rw [findOrCreateUser_created freshId nowMs hfind,
        findOrCreateUser_created freshId nowMs (hsame ▸ hfind)]
  · intro p' freshId' nowMs' hmail
    exact findOrCreateUser_same_email_same_id p p' db freshId nowMs freshId' nowMs' hmail

/-- Witness for `findOrCreateUser_googleId_independent`: two logins with
the same email but different subjects return the same local id, and the
returned `googleId` is the fresh subject. -/
theorem findOrCreateUser_googleId_independent_witness :
    (findOrCreateUser ⟨"sub-A", "a@example.com", "Alice", none, true⟩ []
        "id-1" 5).1.googleId = "sub-A" ∧
    (findOrCreateUser ⟨"sub-B", "a@example.com", "Alice", none, true⟩
        (findOrCreateUser ⟨"sub-A", "a@example.com", "Alice", none, true⟩ []
          "id-1" 5).2 "id-2" 6).1.id =
      (findOrCreateUser ⟨"sub-A", "a@example.com", "Alice", none, true⟩ []
        "id-1" 5).1.id := by
  have h := findOrCreateUser_googleId_independent
    ⟨"sub-A", "a@example.com", "Alice", none, true⟩ [] "id-1" 5 "sub-B"
  exact ⟨h.1, h.2.2.2 ⟨"sub-B", "a@example.com", "Alice", none, true⟩ "id-2" 6 rfl⟩

/-! ### Code-exchange and token-verification lemmas -/

/-- A successful exchange implies the redirect URI passed the allow-list. -/
lemma exchange_ok_allowed {code codeVerifier redirectUri clientId clientSecret : String}
    {tokenEndpoint : TokenRequest → Option GoogleTokenResponse}
    {x : String × Option String}
    (h : exchangeCodeForIdToken code codeVerifier redirectUri clientId clientSecret
      tokenEndpoint = .ok x) :
    allowedRedirectUri redirectUri = true := by
  unfold exchangeCodeForIdToken at h
  by_cases hcred : (clientId = "" || clientSecret = "") = true
  · rw [if_pos hcred] at h; cases h
  · rw [if_neg hcred] at h
    by_cases hallow : allowedRedirectUri redirectUri = true
    · exact hallow
    · rw [Bool.not_eq_true] at hallow
      rw [hallow] at h
      simp at h

/-- A verified Google token implies tokeninfo answered with the
application's client id as audience. -/
lemma verifyGoogleToken_ok_audience {credential clientId : String}
    {tokeninfo : String → Option GoogleTokenInfo} {gp : GoogleTokenPayload}
    (h : verifyGoogleToken credential clientId tokeninfo = .ok gp) :
    ∃ info, tokeninfo credential = some info ∧ info.aud = clientId := by
  cases hti : tokeninfo credential with
  | none =>
    simp only [verifyGoogleToken, hti] at h
    exact Except.noConfusion h
  | some info =>
    simp only [verifyGoogleToken, hti] at h
    by_cases haud : info.aud = clientId
    · exact ⟨info, rfl, haud⟩
    · simp only [ne_eq, haud, not_false_eq_true, if_true, reduceCtorEq] at h

/-- An absent tokeninfo answer or an audience mismatch makes
`verifyGoogleToken` fail with the caught generic message. -/
lemma verifyGoogleToken_err {credential clientId : String}
    {tokeninfo : String → Option GoogleTokenInfo}
    (h : tokeninfo credential = none ∨
      ∃ info, tokeninfo credential = some info ∧ info.aud ≠ clientId) :
    verifyGoogleToken credential clientId tokeninfo = .error "Invalid Google token" := by
  rcases h with h | ⟨info, hinfo, haud⟩
  · simp only [verifyGoogleToken, h]
  · simp only [verifyGoogleToken, hinfo, ne_eq, haud, not_false_eq_true, if_true]

/-- C1: For every `POST /auth/google/code` request passing body validation,
a session `{user, token}` is returned only if the `redirectUri` passed the
allow-list, the identity token obtained from the exchange verified with
audience equal to the application's Google client id, and the verified
claims had `email_verified` true; an unverified or audience-mismatched
token yields an error response (500), and `email_verified = false` yields
status 400 with error `Email not verified by Google`. -/
theorem postGoogleCode_session_guarded (c v r : String) (env : AuthEnv)
    (tokenEndpoint : TokenRequest → Option GoogleTokenResponse)
    (tokeninfo : String → Option GoogleTokenInfo)
    (db : List DbUser) (freshId : String) (nowMs : Nat)
    (hc : c ≠ "") (hv : v ≠ "") (hr : r ≠ "") :
    (∀ u tok db',
      postGoogleCode ⟨some c, some v, some r⟩ env tokenEndpoint tokeninfo db freshId nowMs =
        (.session u tok, db') →
      allowedRedirectUri r = true ∧
      ∃ idToken rt gp,
        exchangeCodeForIdToken c v r env.googleClientId env.googleClientSecret
          tokenEndpoint = .ok (idToken, rt) ∧
        verifyGoogleToken idToken env.googleClientId tokeninfo = .ok gp ∧
        (∃ info, tokeninfo idToken = some info ∧ info.aud = env.googleClientId) ∧
        gp.email_verified = true) ∧
    (∀ idToken rt,
      exchangeCodeForIdToken c v r env.googleClientId env.googleClientSecret
        tokenEndpoint = .ok (idToken, rt) →
      (tokeninfo idToken = none ∨
        ∃ info, tokeninfo idToken = some info ∧ info.aud ≠ env.googleClientId) →
      postGoogleCode ⟨some c, some v, some r⟩ env tokenEndpoint tokeninfo db freshId nowMs =
        (.err 500 "Code flow authentication failed", db)) ∧
    (∀ idToken rt gp,
      exchangeCodeForIdToken c v r env.googleClientId env.googleClientSecret
        tokenEndpoint = .ok (idToken, rt) →
      verifyGoogleToken idToken env.googleClientId tokeninfo = .ok gp →
      gp.email_verified = false →
      postGoogleCode ⟨some c, some v, some r⟩ env tokenEndpoint tokeninfo db freshId nowMs =
        (.err 400 "Email not verified by Google", db)) ∧
    (allowedRedirectUri r = false →
      postGoogleCode ⟨some c, some v, some r⟩ env tokenEndpoint tokeninfo db freshId nowMs =
        (.err 500 "Code flow authentication failed", db)) := by
  refine ⟨?_, ?_, ?_, ?_⟩
  · intro u tok db' hsess
    simp only [postGoogleCode, if_neg hc, if_neg hv, if_neg hr] at hsess
    cases hex : exchangeCodeForIdToken c v r env.googleClientId env.googleClientSecret
        tokenEndpoint with
    | error e =>
      simp only [hex, reduceCtorEq, Prod.mk.injEq, false_and] at hsess
    | ok x =>
      obtain ⟨idToken, rt⟩ := x
      simp only [hex] at hsess
      cases hver : verifyGoogleToken idToken env.googleClientId tokeninfo with
      | error e => simp only [hver, reduceCtorEq, Prod.mk.injEq, false_and] at hsess
      | ok gp =>
        simp only [hver] at hsess
        cases hev : gp.email_verified with
        | false => simp only [hev, Bool.not_false, if_true, reduceCtorEq,
            Prod.mk.injEq, false_and] at hsess
        | true =>
          exact ⟨exchange_ok_allowed hex,
            idToken, rt, gp, rfl, hver, verifyGoogleToken_ok_audience hver, hev⟩
  · intro idToken rt hex hbad
    simp only [postGoogleCode, if_neg hc, if_neg hv, if_neg hr, hex,
      verifyGoogleToken_err hbad]
  · intro idToken rt gp hex hver hev
    simp only [postGoogleCode, if_neg hc, if_neg hv, if_neg hr, hex, hver, hev,
      Bool.not_false, if_true]
  · intro hnallow
    cases hex : exchangeCodeForIdToken c v r env.googleClientId env.googleClientSecret
        tokenEndpoint with
    | error e =>
      simp only [postGoogleCode, if_neg hc, if_neg hv, if_neg hr, hex]
    | ok x =>
      have := exchange_ok_allowed hex
      rw [hnallow] at this
      cases this

/-- Witness for `postGoogleCode_session_guarded`: a validated body whose
exchange succeeds but whose verified claims have `email_verified = false`
receives status 400 with `Email not verified by Google`. -/
theorem postGoogleCode_session_guarded_witness :
    postGoogleCode ⟨some "x", some "y", some "http://localhost:3000/auth/callback"⟩
        ⟨"cid", "csec", "jsec"⟩
        (fun _ => some ⟨some "idtok", none⟩)
        (fun _ => some ⟨"cid", some "a@example.com", .boolean false, some "Alice", none, "sub1"⟩)
        [] "id-1" 5 =
      (.err 400 "Email not verified by Google", []) :=
  (postGoogleCode_session_guarded "x" "y" "http://localhost:3000/auth/callback"
      ⟨"cid", "csec", "jsec"⟩
      (fun _ => some ⟨some "idtok", none⟩)
      (fun _ => some ⟨"cid", some "a@example.com", .boolean false, some "Alice", none, "sub1"⟩)
      [] "id-1" 5 (by decide) (by decide) (by decide)).2.2.1
    "idtok" none ⟨"sub1", "a@example.com", "Alice", none, false⟩ rfl rfl rfl

/-- C2 (failing input): the middleware calls the async `verifyJWT` without
`await`, so a request whose bearer token fails verification is **not**
rejected with 401 — it proceeds to the downstream handler with the pending
promise stored as the context user.  Evaluated here at the concrete header
`Authorization: Bearer tampered.token` whose token's verification outcome
is the failure `Token verification failed`. -/
theorem authMiddleware_missing_await_bug :
    authMiddleware (some "Bearer tampered.token")
        (fun _ => .error "Token verification failed") =
      .proceed (.pendingPromise (.error "Token verification failed")) := rfl

/-- C4: `handleAuthCallback` always returns a tagged result (it is a total
function of its inputs — nothing is thrown), and the result follows the
precedence: absent or empty `code` (the source's falsy `!code` check) →
`CODE_MISSING`; else `state ≠ 'login'` → `STATE_MISMATCH`; else an absent
(or empty) stashed verifier → `PKCE_VERIFIER_MISSING`; else a failed
exchange → `CODE_EXCHANGE_FAILED`; else success, with the returned session
persisted to the store and the stashed verifier removed. -/
theorem handleAuthCallback_result_spec (code state : Option String)
    (exchange : String → String → Except String (Json × String))
    (st : ClientStorage) :
    (code = none ∨ code = some "" →
      handleAuthCallback code state exchange st = (.err .CODE_MISSING "code missing", st)) ∧
    (∀ c, code = some c → c ≠ "" → state ≠ some "login" →
      handleAuthCallback code state exchange st =
        (.err .STATE_MISMATCH "state mismatch", st)) ∧
    (∀ c, code = some c → c ≠ "" → state = some "login" →
      st.pkceVerifier = none ∨ st.pkceVerifier = some "" →
      handleAuthCallback code state exchange st =
        (.err .PKCE_VERIFIER_MISSING "verifier missing (restart login)", st)) ∧
    (∀ c ver msg, code = some c → c ≠ "" → state = some "login" →
      st.pkceVerifier = some ver → ver ≠ "" → exchange c ver = .error msg →
      handleAuthCallback code state exchange st =
        (.err .CODE_EXCHANGE_FAILED (if msg = "" then "code exchange failed" else msg), st)) ∧
    (∀ c ver u tok, code = some c → c ≠ "" → state = some "login" →
      st.pkceVerifier = some ver → ver ≠ "" → exchange c ver = .ok (u, tok) →
      handleAuthCallback code state exchange st =
        (.ok, { pkceVerifier := none
                localStore := saveAuthData tok u none st.localStore })) := by
  refine ⟨?_, ?_, ?_, ?_, ?_⟩
  · rintro (h | h)
    · subst h
      rfl
    · subst h
      simp [handleAuthCallback]
  · intro c hc hcne hs
    subst hc
    simp only [handleAuthCallback, if_neg hcne, if_pos hs]
  · intro c hc hcne hs hver
    subst hc
    subst hs
    simp only [handleAuthCallback, if_neg hcne]
    rw [if_neg (fun h => h rfl)]
    rcases hver with h | h
    · simp only [h]
    · simp only [h]
      simp
  · intro c ver msg hc hcne hs hver hne hex
    subst hc
    subst hs
    simp only [handleAuthCallback, if_neg hcne]
    rw [if_neg (fun h => h rfl)]
    simp only [hver, if_neg hne, hex]
  · intro c ver u tok hc hcne hs hver hne hex
    subst hc
    subst hs
    simp only [handleAuthCallback, if_neg hcne]
    rw [if_neg (fun h => h rfl)]
    simp only [hver, if_neg hne, hex]

/-- Witness for `handleAuthCallback_result_spec`: the success path at a
concrete callback persists the returned session and drops the verifier. -/
theorem handleAuthCallback_result_spec_witness :
    handleAuthCallback (some "code1") (some "login")
        (fun _ _ => .ok (Json.obj [("id", .str "u1"), ("email", .str "a@example.com")], "tok1"))
        ⟨some "ver1", ⟨none, none, none⟩⟩ =
      (.ok, { pkceVerifier := none
              localStore := saveAuthData "tok1"
                (Json.obj [("id", .str "u1"), ("email", .str "a@example.com")]) none
                ⟨none, none, none⟩ }) :=
  (handleAuthCallback_result_spec (some "code1") (some "login")
      (fun _ _ => .ok (Json.obj [("id", .str "u1"), ("email", .str "a@example.com")], "tok1"))
      ⟨some "ver1", ⟨none, none, none⟩⟩).2.2.2.2
    "code1" "ver1" (Json.obj [("id", .str "u1"), ("email", .str "a@example.com")]) "tok1"
    rfl (by decide) rfl rfl (by decide) rfl

/-- C6 (counterexample): with the token key absent, an invalid stored user
value, and a stored expiry, `load` returns null but deletes only the user
key — the expiry key survives, contradicting the claim that the token,
user, and expiry keys are all deleted in this case. -/
theorem getAuthData_invalid_user_leaves_expiry :
    (getAuthData ⟨none, some (.parsed (.obj [])), some "123"⟩).1 = none ∧
    (getAuthData ⟨none, some (.parsed (.obj [])), some "123"⟩).2.authExpiresAt =
      some "123" :=
  ⟨rfl, rfl⟩

/-- C6 (amended): `load` returns a record only when both a token and a
valid user are present.  When exactly one of the token and the user read
is present it clears all three keys and returns null — except that when
the token is absent and the user read also yields null (the user key being
absent, empty, or invalid), only `getUser`'s own self-healing removal
happens, so a stored expiry key survives. -/
theorem getAuthData_partial_record_selfheal (st : LocalStorage) :
    (∀ d, (getAuthData st).1 = some d →
      getToken st = some d.token ∧ (getUser st).1 = some d.user) ∧
    ((getToken st).isSome → (getUser st).1 = none →
      (getAuthData st).1 = none ∧ (getAuthData st).2 = ⟨none, none, none⟩) ∧
    (getToken st = none → ((getUser st).1).isSome →
      (getAuthData st).1 = none ∧ (getAuthData st).2 = ⟨none, none, none⟩) ∧
    (getToken st = none → (getUser st).1 = none →
      (getAuthData st).1 = none ∧ (getAuthData st).2 = (getUser st).2) := by
  cases hu : getUser st with
  | mk uo st1 =>
    refine ⟨?_, ?_, ?_, ?_⟩
    · intro d hd
      simp only [getAuthData, hu] at hd
      cases ht : getToken st with
      | none =>
        cases uo with
        | none =>
          simp only [ht] at hd
          exact Option.noConfusion hd
        | some u =>
          simp only [ht] at hd
          exact Option.noConfusion hd
      | some t =>
        cases uo with
        | none =>
          simp only [ht] at hd
          exact Option.noConfusion hd
        | some u =>
          simp only [ht, Option.some.injEq] at hd
          rw [← hd]
          exact ⟨rfl, rfl⟩
    · intro htok huser
      have huo : uo = none := huser
      subst huo
      cases ht : getToken st with
      | none =>
        simp only [ht, Option.isSome_none] at htok
        exact Bool.noConfusion htok
      | some t =>
        constructor
        · simp only [getAuthData, hu, ht]
        · simp only [getAuthData, hu, ht, clearAll]
    · intro htok huser
      cases huo : uo with
      | none =>
        simp only [huo, Option.isSome_none] at huser
        exact Bool.noConfusion huser
      | some u =>
        subst huo
        constructor
        · simp only [getAuthData, hu, htok]
        · simp only [getAuthData, hu, htok, clearAll]
    · intro htok huser
      have huo : uo = none := huser
      subst huo
      constructor
      · simp only [getAuthData, hu, htok]
      · simp only [getAuthData, hu, htok]

/-- Witness for `getAuthData_partial_record_selfheal`: a token stored
without any user is cleared entirely by `load`. -/
theorem getAuthData_partial_record_selfheal_witness :
    (getToken ⟨some "tok", none, some "99"⟩).isSome = true ∧
    (getAuthData ⟨some "tok", none, some "99"⟩).1 = none ∧
    (getAuthData ⟨some "tok", none, some "99"⟩).2 = ⟨none, none, none⟩ := by
  refine ⟨rfl, ?_⟩
  exact (getAuthData_partial_record_selfheal ⟨some "tok", none, some "99"⟩).2.1 rfl rfl

/-- C8 (counterexample): with a complete record whose stored expiry `100`
lies at or before any current time ≥ 100, `hasValidAuthData` still returns
true and clears nothing — it performs no expiry comparison at all (it has
no time input), contradicting the claim that it returns false and clears
the record. -/
theorem hasValidAuthData_ignores_expiry :
    (hasValidAuthData
      ⟨some "tok", some (.parsed (.obj [("id", Json.str "u1"), ("email", Json.str "a@b")])),
        some "100"⟩).1 = true ∧
    (hasValidAuthData
      ⟨some "tok", some (.parsed (.obj [("id", Json.str "u1"), ("email", Json.str "a@b")])),
        some "100"⟩).2.authExpiresAt = some "100" :=
  ⟨rfl, rfl⟩

/-- C8 (amended): `hasValidAuthData` only reports whether `load` returns a
record, with no expiry comparison; the expiry check lives in
`isTokenValid`: with a complete record whose stored expiry parses to a
nonzero value at or before the current time it clears all three keys and
returns false, and it returns true exactly when a complete record is
present whose expiry is absent, zero, or in the future. -/
theorem isTokenValid_expiry_spec (st : LocalStorage) (nowMs : Int) :
    (hasValidAuthData st).1 = ((getAuthData st).1).isSome ∧
    (hasValidAuthData st).2 = (getAuthData st).2 ∧
    ((getAuthData st).1 = none → isTokenValid st nowMs = (false, (getAuthData st).2)) ∧
    (∀ d e, (getAuthData st).1 = some d → d.expiresAt = some e → e ≠ 0 → nowMs ≥ e →
      isTokenValid st nowMs = (false, ⟨none, none, none⟩)) ∧
    (∀ d e, (getAuthData st).1 = some d → d.expiresAt = some e → e ≠ 0 → nowMs < e →
      isTokenValid st nowMs = (true, (getAuthData st).2)) ∧
    (∀ d, (getAuthData st).1 = some d → d.expiresAt = none ∨ d.expiresAt = some 0 →
      isTokenValid st nowMs = (true, (getAuthData st).2)) := by
  cases hga : getAuthData st with
  | mk od st1 =>
    refine ⟨?_, ?_, ?_, ?_, ?_, ?_⟩
    · simp only [hasValidAuthData, hga]
    · simp only [hasValidAuthData, hga]
    · intro hod
      simp only at hod
      simp only [isTokenValid, hga, hod]
    · intro d e hod hexp hne hle
      simp only at hod
      simp only [isTokenValid, hga, hod, hexp, if_pos hne, if_pos hle, clearAll]
    · intro d e hod hexp hne hlt
      simp only at hod
      simp only [isTokenValid, hga, hod, hexp, if_pos hne, if_neg (not_le.mpr hlt)]
    · intro d hod hexp
      simp only at hod
      rcases hexp with h | h
      · simp only [isTokenValid, hga, hod, h]
      · simp only [isTokenValid, hga, hod, h, ne_eq, not_true_eq_false, if_false]

/-- Witness for `isTokenValid_expiry_spec`: an expired complete record is
cleared by `isTokenValid`, which returns false. -/
theorem isTokenValid_expiry_spec_witness :
    isTokenValid
        ⟨some "tok", some (.parsed (.obj [("id", Json.str "u1"), ("email", Json.str "a@b")])),
          some "100"⟩ 200 =
      (false, ⟨none, none, none⟩) :=
  (isTokenValid_expiry_spec
      ⟨some "tok", some (.parsed (.obj [("id", Json.str "u1"), ("email", Json.str "a@b")])),
        some "100"⟩ 200).2.2.2.1
    ⟨"tok", .obj [("id", Json.str "u1"), ("email", Json.str "a@b")], some 100⟩ 100
    rfl rfl (by decide) (by decide)

/-- C9: when `initializeAuthState` finds a stored session it first projects
it into the optimistic state as authenticated; then, on revalidation
success, the fresher identity replaces the authoritative state (still
authenticated, same token); on revalidation failure (caught, nothing
thrown) the store is cleared and both states become logged out. -/
theorem initializeAuthState_spec (st : LocalStorage)
    (fetchMe : String → Except Unit Json) (s : HookState)
    (d : StoredAuthData) (st1 : LocalStorage)
    (hload : getAuthData st = (some d, st1)) :
    (initializeAuthState st fetchMe s).projected =
      some ⟨some d.user, true, false, some d.token⟩ ∧
    (∀ u, fetchMe d.token = .ok u →
      (initializeAuthState st fetchMe s).final.actual = ⟨some u, true, false, some d.token⟩ ∧
      (initializeAuthState st fetchMe s).final.optimistic =
        ⟨some d.user, true, false, some d.token⟩ ∧
      (initializeAuthState st fetchMe s).storage = st1) ∧
    (∀ e, fetchMe d.token = .error e →
      (initializeAuthState st fetchMe s).final.actual = loggedOutState ∧
      (initializeAuthState st fetchMe s).final.optimistic = loggedOutState ∧
      (initializeAuthState st fetchMe s).storage = ⟨none, none, none⟩) := by
  refine ⟨?_, ?_, ?_⟩
  · simp only [initializeAuthState, hload]
    cases hf : fetchMe d.token with
    | ok u => simp only [hf]
    | error e => simp only [hf]
  · intro u hf
    simp only [initializeAuthState, hload, hf]
    exact ⟨trivial, trivial, trivial⟩
  · intro e hf
    simp only [initializeAuthState, hload, hf, clearAll]
    exact ⟨trivial, trivial, trivial⟩

/-- Witness for `initializeAuthState_spec`: a stored session whose
revalidation fails leaves both states logged out and the store empty. -/
theorem initializeAuthState_spec_witness :
    (initializeAuthState
        ⟨some "t", some (.parsed (.obj [("id", Json.str "u1"), ("email", Json.str "a@b")])), none⟩
        (fun _ => .error ())
        ⟨⟨none, false, true, none⟩, ⟨none, false, true, none⟩⟩).final.actual =
      loggedOutState :=
  ((initializeAuthState_spec
      ⟨some "t", some (.parsed (.obj [("id", Json.str "u1"), ("email", Json.str "a@b")])), none⟩
      (fun _ => .error ())
      ⟨⟨none, false, true, none⟩, ⟨none, false, true, none⟩⟩
      ⟨"t", .obj [("id", Json.str "u1"), ("email", Json.str "a@b")], none⟩
      ⟨some "t", some (.parsed (.obj [("id", Json.str "u1"), ("email", Json.str "a@b")])), none⟩
      rfl).2.2 () rfl).1

end BodyTracker
